import Mathlib

/-!
Verification of the taste subsystem of get-me-a-date.

The definitions below are a shallow embedding of the Taste class source file
(src/unnamed/part_000; the line numbers cited in doc comments refer to it):
external collaborators (S3, Rekognition, the HTTP client, the settings
store) are modelled as oracle fields of an Env record or as an outcome
function named detect, the mutable Photo records are passed and returned
explicitly, and every service call an operation issues is collected in a
Call trace.
-/

namespace GetMeADate

/-- Rounding to two decimal places as lodash round does on the values used
here: JS Math.round semantics, the floor of x * 100 + 1/2, divided by 100. -/
def round2 (q : ℚ) : ℚ := (⌊q * 100 + 1 / 2⌋ : ℤ) / 100

/-- JS logical-or applied to a numeric left operand: undefined and NaN
(modelled as none) and 0 are falsy and yield the right operand. -/
def jsNumOr (x : Option ℚ) (d : ℚ) : ℚ :=
  match x with
  | none => d
  | some v => if v = 0 then d else v

/-- lodash max over a list of numbers: none on an empty list. -/
def maxQ (l : List ℚ) : Option ℚ :=
  l.foldl (fun acc x =>
    match acc with
    | none => some x
    | some m => some (max m x)) none

/-- lodash min over a list of numbers: none on an empty list. -/
def minQ (l : List ℚ) : Option ℚ :=
  l.foldl (fun acc x =>
    match acc with
    | none => some x
    | some m => some (min m x)) none

/-- JS String.replace with a plain string pattern: replaces the first
occurrence of pat, scanning left to right, and leaves the rest unchanged. -/
def replaceFirstAux (pat rep : List Char) : List Char → List Char
  | [] => if pat = [] then rep else []
  | c :: cs =>
    if pat.isPrefixOf (c :: cs) then rep ++ (c :: cs).drop pat.length
    else c :: replaceFirstAux pat rep cs

/-- JS String.replace with a plain string pattern, on String. -/
def replaceFirstS (s pat rep : String) : String :=
  String.mk (replaceFirstAux pat.data rep.data s.data)

/-- The pathname component of node url.parse for the http(s) URLs this code
handles: everything from the first slash after the scheme-and-host part. -/
def pathnameOf (url : String) : String :=
  if "https://".data.isPrefixOf url.data then
    String.mk ((url.data.drop 8).dropWhile (fun c => c ≠ '/'))
  else if "http://".data.isPrefixOf url.data then
    String.mk ((url.data.drop 7).dropWhile (fun c => c ≠ '/'))
  else url

/-- JS String.split on a single separator character. -/
def splitOnChar (sep : Char) : List Char → List (List Char)
  | [] => [[]]
  | c :: cs =>
    match splitOnChar sep cs with
    | [] => [[c]]
    | g :: gs => if c = sep then [] :: g :: gs else (c :: g) :: gs

/-- The i-th slash segment of a string, or a default when absent (a missing
segment concatenates as the JS string undefined). -/
def segAt (s : String) (i : Nat) (dflt : String) : String :=
  match (splitOnChar '/' s.data).get? i with
  | some g => String.mk g
  | none => dflt

/-- JS truthiness of a nullable string field: null/undefined and the empty
string are falsy. -/
def truthyStr : Option String → Bool
  | none => false
  | some s => s != ""

/-- A checked-out candidate photo record, mutated in place by the pipeline;
the mutation is modelled by returning the updated record. -/
structure Photo where
  url : String
  similarity : Option ℚ
  similarity_date : Option String
  deriving DecidableEq, Repr

/-- One face record of the rekognition collection: a detected face id and the
object key of the source image it was detected in. -/
structure FaceRecord where
  FaceId : String
  ExternalImageId : String
  deriving DecidableEq, Repr

/-- The singleton settings record returned by the settings store. -/
structure Settings where
  likePhotosThreshold : ℚ
  deriving DecidableEq, Repr

/-- A service call issued by an operation, recorded in its trace. -/
inductive Call where
  | httpGet (url : String)
  | s3Put (bucket key body : String)
  | s3Copy (bucket srcKey dstKey : String)
  | s3Delete (bucket key : String)
  | rekSearch (collection image : String)
  deriving DecidableEq, Repr

/-- An HTTP response of the request client. -/
structure Http where
  statusCode : Nat
  statusMessage : String
  body : String
  deriving DecidableEq, Repr

/-- Outcome of rekognition searchFacesByImage: the similarity percentages of
the face matches, an invalid-image error (error code containing
InvalidImageFormatException or InvalidParameterException), or another error. -/
inductive SearchOutcome where
  | matches (similarities : List ℚ)
  | invalidImage
  | otherError (msg : String)
  deriving DecidableEq, Repr

/-- Outcome of a rekognition indexFaces call for one image: the list of face
ids the service detected and recorded in the collection (with the image key as
ExternalImageId), a response with no FaceRecords field, an invalid-image
error (error code containing InvalidImageFormatException or
InvalidParameterException), or any other error. -/
inductive IndexOutcome where
  | ok (faceIds : List String)
  | noRecords
  | invalidImage
  | otherError (msg : String)
  deriving DecidableEq, Repr

/-- The external collaborators the Taste class talks to, as oracles:
configuration strings, the HTTP client, S3 putObject success, the image
resizer, rekognition face search keyed by image bytes, and the settings
record that findOrCreateNewSettings resolves to. -/
structure Env where
  region : String
  bucket : String
  collection : String
  nowIso : String
  httpGet : String → Http
  putObjectOk : String → String → Bool
  resizeImage : String → Nat → Nat → String
  search : String → SearchOutcome
  settings : Settings

/-- The external state the collection synchronizer acts on: the face records
currently in the rekognition collection and the object keys currently in the
S3 bucket under the train prefix. -/
structure SyncState where
  faces : List FaceRecord
  bucket : List String
  deriving DecidableEq, Repr

/-- The face ids a detect oracle reports for an image on the ok path. -/
def okIds (detect : String → IndexOutcome) (img : String) : List String :=
  match detect img with
  | .ok fs => fs
  | _ => []

/-- Whether indexing this image detects exactly one face and keeps it. -/
def keeps (detect : String → IndexOutcome) (img : String) : Bool :=
  match detect img with
  | .ok fs => fs.length == 1
  | _ => false

/-- Whether indexing this image ends with the source object deleted from the
bucket: a face count different from one, or an invalid-image error. -/
def purges (detect : String → IndexOutcome) (img : String) : Bool :=
  match detect img with
  | .ok fs => fs.length != 1
  | .invalidImage => true
  | _ => false

/-- The face records that indexing this image leaves in the collection: the
single detected face on the exactly-one-face path, nothing otherwise. -/
def addedFaces (detect : String → IndexOutcome) (img : String) : List FaceRecord :=
  match detect img with
  | .ok fs => if fs.length = 1 then fs.map (fun id => FaceRecord.mk id img) else []
  | _ => []

/-- rekognition deleteFaces: removes from the collection every face whose id
is in the given list. -/
def deleteFacesFromList (ids : List String) (faces : List FaceRecord) : List FaceRecord :=
  faces.filter (fun f => decide (f.FaceId ∉ ids))

/-- One iteration of indexFacesFromImages (source lines 40-64) for a single
image: on a response, the service has recorded the detected faces in the
collection; if the face count differs from one the detected face ids are
deleted from the collection and the object is deleted from the bucket,
otherwise the indexed-face counter is incremented; a missing FaceRecords
field does nothing; an invalid-image error deletes the object from the
bucket; any other error is only logged. -/
def indexStep (detect : String → IndexOutcome) (acc : SyncState × Nat) (image : String) :
    SyncState × Nat :=
  match detect image with
  | .ok fs =>
    let added := fs.map (fun id => FaceRecord.mk id image)
    let faces1 := acc.1.faces ++ added
    if fs.length ≠ 1 then
      ⟨⟨deleteFacesFromList fs faces1, acc.1.bucket.filter (fun b => b != image)⟩, acc.2⟩
    else
      ⟨⟨faces1, acc.1.bucket⟩, acc.2 + 1⟩
  | .noRecords => acc
  | .invalidImage => ⟨⟨acc.1.faces, acc.1.bucket.filter (fun b => b != image)⟩, acc.2⟩
  | .otherError _ => acc

/-- indexFacesFromImages (source lines 37-66): runs face indexing over the
images and returns the resulting external state together with the number of
images that ended up with exactly one face indexed. -/
def indexFacesFromImages (detect : String → IndexOutcome) (st : SyncState)
    (images : List String) : SyncState × Nat :=
  images.foldl (indexStep detect) (st, 0)

/-- The distinct ExternalImageIds of the face records in the collection
(source lines 202-205). -/
def currentImagesOf (faces : List FaceRecord) : List String :=
  (faces.map (fun f => f.ExternalImageId)).dedup

/-- The images to delete: indexed images no longer present in the bucket
(source line 207). -/
def imagesToDeleteOf (st : SyncState) : List String :=
  (currentImagesOf st.faces).filter (fun i => decide (i ∉ st.bucket))

/-- The images to index: bucket images not yet present in the collection
(source line 208). -/
def imagesToIndexOf (st : SyncState) : List String :=
  st.bucket.filter (fun i => decide (i ∉ currentImagesOf st.faces))

/-- The face ids to delete: all face ids of every image to delete
(source lines 211-218). -/
def facesToDeleteOf (st : SyncState) : List String :=
  (imagesToDeleteOf st).flatMap (fun img =>
    (st.faces.filter (fun f => f.ExternalImageId == img)).map (fun f => f.FaceId))

/-- syncS3BucketAndRekognitionCollection (source lines 193-231): computes
the two difference sets, deletes the stale faces from the collection in one
batch, runs face indexing over the missing images, and reports the deleted
and indexed counts. -/
def runSync (detect : String → IndexOutcome) (st : SyncState) : SyncState × Nat × Nat :=
  let facesToDelete := facesToDeleteOf st
  let faces1 := deleteFacesFromList facesToDelete st.faces
  let res := indexFacesFromImages detect ⟨faces1, st.bucket⟩ (imagesToIndexOf st)
  (res.1, facesToDelete.length, res.2)

/-- Freshness of the face ids a detect oracle generates: no generated id
collides with a base id already in the collection, and ids generated for
different images never collide (rekognition assigns globally unique ids). -/
def FreshIds (detect : String → IndexOutcome) (baseIds : List String)
    (images : List String) : Prop :=
  ∀ img ∈ images, ∀ id ∈ okIds detect img,
    id ∉ baseIds ∧ ∀ imgB ∈ images, id ∈ okIds detect imgB → imgB = img

/-- Options of savePhoto: an optional resize target and an optional filename
prepend used for thumbnail variants. -/
structure SaveOptions where
  resize : Option (Nat × Nat) := none
  renamePrepend : Option String := none
  deriving DecidableEq, Repr

/-- savePhoto (source lines 78-115): rejects missing arguments, downloads
the photo URL, fails on a non-200 status, optionally resizes the body,
derives the relative pathname from the URL path by stripping the
cache/images and bucket photo-prefix markers, optionally renames it by
prepending a string to its second slash segment, uploads the body under
photos/<channel>/<pathname>, and only after a successful upload rewrites
photo.url to the canonical bucket URL. The node url.parse of a string never
yields a falsy object, so the invalid-photo-url branch of the source is
unreachable and not modelled. -/
def savePhotoBody (env : Env) (photo : Photo) (options : SaveOptions) : String :=
  match options.resize with
  | some wh => env.resizeImage (env.httpGet photo.url).body wh.1 wh.2
  | none => (env.httpGet photo.url).body

/-- The relative pathname of the uploaded object (source lines 103-106):
the URL path without its leading slash, with the cache/images marker and the
bucket photo prefix stripped, and, under the rename option, with the prepend
string inserted after the first slash segment. -/
def savePhotoPathname (env : Env) (channelName : String) (photo : Photo)
    (options : SaveOptions) : String :=
  let pn0 := String.mk ((pathnameOf photo.url).data.drop 1)
  let pn1 := replaceFirstS pn0 "cache/images/" ""
  let pn2 := replaceFirstS pn1 (env.bucket ++ "/photos/" ++ channelName ++ "/") ""
  match options.renamePrepend with
  | some pre => segAt pn2 0 "" ++ "/" ++ pre ++ segAt pn2 1 "undefined"
  | none => pn2

/-- The object key of the uploaded photo (source line 108). -/
def savePhotoKey (env : Env) (channelName : String) (photo : Photo)
    (options : SaveOptions) : String :=
  "photos/" ++ channelName ++ "/" ++ savePhotoPathname env channelName photo options

def savePhoto (env : Env) (channelName : String) (photo : Photo)
    (options : SaveOptions) : Except String String × Photo × List Call :=
  if channelName = "" then (.error "invalid arguments", photo, [])
  else
    let resp := env.httpGet photo.url
    if resp.statusCode ≠ 200 then
      (.error "unable to download photo", photo, [.httpGet photo.url])
    else
      let body := savePhotoBody env photo options
      let key := savePhotoKey env channelName photo options
      let calls := [Call.httpGet photo.url, Call.s3Put env.bucket key body]
      if env.putObjectOk env.bucket key then
        (.ok body,
          { photo with
            url := "https://s3-" ++ env.region ++ ".amazonaws.com/" ++ env.bucket ++ "/" ++ key },
          calls)
      else
        (.error "putObject failed", photo, calls)

/-- compareFacesFromImage (source lines 117-135): searches the collection
for faces matching the image; on a response, the similarity is the maximum
match similarity rounded to two decimals, defaulting to 0, and the photo is
stamped with the current date; on an invalid-image error the similarity is
recorded as 0 and the photo is stamped; any other error propagates. -/
def compareFacesFromImage (env : Env) (photo : Photo) (image : String) :
    Except String ℚ × Photo × List Call :=
  match env.search image with
  | .matches sims =>
    let s := jsNumOr ((maxQ sims).map round2) 0
    (.ok s, { photo with similarity := some s, similarity_date := some env.nowIso },
      [.rekSearch env.collection image])
  | .invalidImage =>
    (.ok 0, { photo with similarity := some 0, similarity_date := some env.nowIso },
      [.rekSearch env.collection image])
  | .otherError msg =>
    (.error msg, photo, [.rekSearch env.collection image])

/-- checkPhotoOut (source lines 68-76): if the photo already has a
similarity_date it returns the cached similarity without any service call;
otherwise it saves the photo with no options and compares the saved image
against the collection, swallowing any error (the result is then undefined). -/
def checkPhotoOut (env : Env) (channelName : String) (photo : Photo) :
    Option ℚ × Photo × List Call :=
  if truthyStr photo.similarity_date then (photo.similarity, photo, [])
  else
    match savePhoto env channelName photo {} with
    | (.ok image, photo1, calls1) =>
      match compareFacesFromImage env photo1 image with
      | (.ok s, photo2, calls2) => (some s, photo2, calls1 ++ calls2)
      | (.error _, photo2, calls2) => (none, photo2, calls1 ++ calls2)
    | (.error _, photo1, calls1) => (none, photo1, calls1)

/-- lodash without(sims, 0, undefined): drops every 0 and undefined entry. -/
def lodashWithout0Undef (sims : List (Option ℚ)) : List (Option ℚ) :=
  sims.filter (fun x => !(x == some 0) && !(x == none))

/-- lodash mean: NaN (modelled as none) on an empty list or when an entry is
undefined, the sum over the length otherwise. -/
def lodashMean (l : List (Option ℚ)) : Option ℚ :=
  let vals := l.filterMap id
  if l.isEmpty then none
  else if vals.length ≠ l.length then none
  else some (vals.sum / (l.length : ℚ))

/-- The batch mean of source line 271: round(mean(without(sims, 0,
undefined)), 2) or-else 0. -/
def faceSimilarityMeanOf (sims : List (Option ℚ)) : ℚ :=
  jsNumOr ((lodashMean (lodashWithout0Undef sims)).map round2) 0

/-- The mean as the spec words it: the mean of the per-photo similarity list
after excluding every 0 and undefined entry, rounded to 2 decimals and
defaulting to 0 when no valid scores remain. -/
def specMeanOf (sims : List (Option ℚ)) : ℚ :=
  let valid := (sims.filterMap id).filter (fun q => decide (q ≠ 0))
  if valid.isEmpty then 0 else round2 (valid.sum / (valid.length : ℚ))

/-- lodash max over a list with possibly undefined entries skips them. -/
def lodashMaxOpt (sims : List (Option ℚ)) : Option ℚ := maxQ (sims.filterMap id)

/-- lodash min over a list with possibly undefined entries skips them. -/
def lodashMinOpt (sims : List (Option ℚ)) : Option ℚ := minQ (sims.filterMap id)

/-- findOrCreateNewSettings (source lines 248-257): the settings record
found by id 1 or created with defaults; the environment carries the record
this collaborator resolves to. -/
def findOrCreateNewSettings (env : Env) : Settings := env.settings

/-- The aggregate result of checkPhotosOut. -/
structure BatchResult where
  faceSimilarities : List (Option ℚ)
  faceSimilarityMax : Option ℚ
  faceSimilarityMin : Option ℚ
  faceSimilarityMean : ℚ
  like : Bool
  deriving DecidableEq, Repr

/-- The body of checkPhotosOut after the argument check (source lines
264-293): checks every photo out, aggregates max, min and mean over the
similarity list, and decides like = list non-empty and mean above the
likePhotosThreshold of the found-or-created settings. -/
def computeBatch (env : Env) (channelName : String) (photos : List Photo) :
    BatchResult × List Photo :=
  let results := photos.map (fun p => checkPhotoOut env channelName p)
  let faceSimilarities := results.map (fun r => r.1)
  let photos1 := results.map (fun r => r.2.1)
  let settings := findOrCreateNewSettings env
  let mean := faceSimilarityMeanOf faceSimilarities
  let like := !faceSimilarities.isEmpty && decide (mean > settings.likePhotosThreshold)
  (⟨faceSimilarities, lodashMaxOpt faceSimilarities, lodashMinOpt faceSimilarities,
    mean, like⟩, photos1)

/-- checkPhotosOut (source lines 259-294): rejects a missing channel name
(an empty JS string is falsy; a photos array, even empty, is always truthy)
and otherwise returns the aggregate batch result. -/
def checkPhotosOut (env : Env) (channelName : String) (photos : List Photo) :
    Except String BatchResult × List Photo :=
  if channelName = "" then (.error "invalid arguments", photos)
  else
    let r := computeBatch env channelName photos
    (.ok r.1, r.2)

/-- mentalSnapshot (source lines 233-246): rejects missing arguments,
clones the photo, saves the clone as an 84 by 84 thumbnail with the 84x84_
filename prepend, and returns the new URL of the clone; the original photo
record is left untouched. -/
def mentalSnapshot (env : Env) (channelName : String) (photo : Photo) :
    Except String String × Photo × List Call :=
  if channelName = "" then (.error "invalid arguments", photo, [])
  else
    let thumbnail := photo
    match savePhoto env channelName thumbnail ⟨some (84, 84), some "84x84_"⟩ with
    | (.ok _, thumb1, calls) => (.ok thumb1.url, photo, calls)
    | (.error e, _, calls) => (.error e, photo, calls)

/-- The destination training key of acquireTaste (source line 304): the
source key with its first occurrence of /<bucket>/photos replaced by train. -/
def acquireDstKey (bucket srcKey : String) : String :=
  replaceFirstS srcKey ("/" ++ bucket ++ "/photos") "train"

/-- acquireTaste (source lines 296-311): for each photo, derives the source
key from the URL pathname and the destination key by prefix substitution,
copies the object server-side, then runs face indexing over the copied keys
and reports the indexed-face count. -/
def acquireTaste (bucket : String) (detect : String → IndexOutcome) (st : SyncState)
    (photos : List Photo) : SyncState × Nat × List Call :=
  let keys := photos.map (fun p =>
    let srcKey := pathnameOf p.url
    (srcKey, acquireDstKey bucket srcKey))
  let copies := keys.map (fun k => Call.s3Copy bucket k.1 k.2)
  let res := indexFacesFromImages detect st (keys.map (fun k => k.2))
  (res.1, res.2, copies)

/-- A concrete environment with every collaborator succeeding, face search
returning no matches, and the given like threshold. -/
def envT (t : ℚ) : Env where
  region := "eu-west-1"
  bucket := "get-me-a-date-1"
  collection := "get-me-a-date-1"
  nowIso := "2017-03-01T00:00:00.000Z"
  httpGet := fun _ => ⟨200, "OK", "BODY"⟩
  putObjectOk := fun _ _ => true
  resizeImage := fun b _ _ => "thumb-" ++ b
  search := fun _ => .matches []
  settings := ⟨t⟩

/-- A concrete already-checked-out photo with similarity 80. -/
def photo80 : Photo := ⟨"https://x/p80.jpg", some 80, some "2017-01-01T00:00:00.000Z"⟩

/-- A concrete already-checked-out photo with similarity 90. -/
def photo90 : Photo := ⟨"https://x/p90.jpg", some 90, some "2017-01-01T00:00:00.000Z"⟩

/-- A concrete photo that has not been checked out yet. -/
def photoFresh : Photo := ⟨"https://host/cache/images/ch1/f.jpg", none, none⟩

/-- The concrete environment of envT with a failing HTTP download. -/
def env404 : Env := { envT 84 with httpGet := fun _ => ⟨404, "Not Found", ""⟩ }

/-- Helper: the indexed-face count of a fold of indexStep is the starting
count plus the number of images whose indexing detects exactly one face. -/
theorem indexFold_count (detect : String → IndexOutcome) :
    ∀ (images : List String) (st : SyncState) (n : Nat),
      (images.foldl (indexStep detect) (st, n)).2
        = n + (images.filter (keeps detect)).length := by
  intro images
  induction images with
  | nil => intro st n; simp
  | cons img tl ih =>
    intro st n
    rw [List.foldl_cons]
    rcases hd : detect img with fs | _ | _ | msg
    · by_cases hlen : fs.length = 1
      · have hstep : indexStep detect (st, n) img
            = ⟨⟨st.faces ++ fs.map (fun id => FaceRecord.mk id img), st.bucket⟩, n + 1⟩ := by
          simp [indexStep, hd, hlen]
        have hk : keeps detect img = true := by simp [keeps, hd, hlen]
        rw [hstep, ih, List.filter_cons, hk]
        simp only [if_true, List.length_cons]
        omega
      · have hstep : indexStep detect (st, n) img
            = ⟨⟨deleteFacesFromList fs (st.faces ++ fs.map (fun id => FaceRecord.mk id img)),
                st.bucket.filter (fun b => b != img)⟩, n⟩ := by
          simp [indexStep, hd, hlen]
        have hk : keeps detect img = false := by simp [keeps, hd, hlen]
        rw [hstep, ih, List.filter_cons, hk]
        simp
    · have hstep : indexStep detect (st, n) img = (st, n) := by simp [indexStep, hd]
      have hk : keeps detect img = false := by simp [keeps, hd]
      rw [hstep, ih, List.filter_cons, hk]
      simp
    · have hstep : indexStep detect (st, n) img
          = ⟨⟨st.faces, st.bucket.filter (fun b => b != img)⟩, n⟩ := by
        simp [indexStep, hd]
      have hk : keeps detect img = false := by simp [keeps, hd]
      rw [hstep, ih, List.filter_cons, hk]
      simp
    · have hstep : indexStep detect (st, n) img = (st, n) := by simp [indexStep, hd]
      have hk : keeps detect img = false := by simp [keeps, hd]
      rw [hstep, ih, List.filter_cons, hk]
      simp

/-- C2: for every photo whose similarity_date is already set (to a date
string, which is never empty), checkPhotoOut short-circuits: it issues no
service calls, returns the existing similarity, and leaves the photo record
completely unchanged. -/
theorem checkPhotoOut_memoized (env : Env) (channelName : String) (photo : Photo)
    (d : String) (hdate : photo.similarity_date = some d) (hne : d ≠ "") :
    checkPhotoOut env channelName photo = (photo.similarity, photo, []) := by
  have ht : truthyStr photo.similarity_date = true := by
    rw [hdate]; simp [truthyStr, hne]
  simp [checkPhotoOut, ht]

/-- Witness for C2 at a concrete checked-out photo. -/
theorem checkPhotoOut_memoized_witness :
    checkPhotoOut (envT 84) "main" photo80 = (some 80, photo80, []) :=
  checkPhotoOut_memoized (envT 84) "main" photo80 "2017-01-01T00:00:00.000Z"
    rfl (by decide)

/-- C3: when indexing an image detects a number of faces different from one,
every detected face id is deleted from the collection and the source object
is deleted from the bucket, and the image contributes zero to the
indexed-face count; in any batch, the count equals the number of images
whose indexing detected exactly one face. -/
theorem indexFacesFromImages_purge_nonSingle (detect : String → IndexOutcome)
    (st : SyncState) (image : String) (fs : List String)
    (hdet : detect image = .ok fs) (hne : fs.length ≠ 1) :
    (∀ id ∈ fs, id ∉ (indexFacesFromImages detect st [image]).1.faces.map (fun f => f.FaceId))
    ∧ image ∉ (indexFacesFromImages detect st [image]).1.bucket
    ∧ (indexFacesFromImages detect st [image]).2 = 0
    ∧ ∀ st2 images2, (indexFacesFromImages detect st2 images2).2
        = (images2.filter (keeps detect)).length := by
  have hrun : indexFacesFromImages detect st [image]
      = ⟨⟨deleteFacesFromList fs (st.faces ++ fs.map (fun id => FaceRecord.mk id image)),
          st.bucket.filter (fun b => b != image)⟩, 0⟩ := by
    simp [indexFacesFromImages, indexStep, hdet, hne]
  refine ⟨?_, ?_, ?_, ?_⟩
  · intro id hid hmem
    rw [hrun] at hmem
    simp only [deleteFacesFromList, List.mem_map, List.mem_filter] at hmem
    obtain ⟨f, ⟨_, hdec⟩, hfid⟩ := hmem
    rw [hfid] at hdec
    exact (of_decide_eq_true hdec) hid
  · rw [hrun]
    simp
  · rw [hrun]
  · intro st2 images2
    simpa [indexFacesFromImages] using indexFold_count detect images2 st2 0

/-- Witness for C3: indexing an image with two detected faces purges both
face records and the source object and counts zero. -/
theorem indexFacesFromImages_purge_nonSingle_witness :
    (∀ id ∈ ["fa", "fb"],
      id ∉ (indexFacesFromImages
        (fun _ => .ok ["fa", "fb"]) ⟨[], ["train/i1"]⟩ ["train/i1"]).1.faces.map
          (fun f => f.FaceId))
    ∧ "train/i1" ∉ (indexFacesFromImages
        (fun _ => .ok ["fa", "fb"]) ⟨[], ["train/i1"]⟩ ["train/i1"]).1.bucket
    ∧ (indexFacesFromImages
        (fun _ => .ok ["fa", "fb"]) ⟨[], ["train/i1"]⟩ ["train/i1"]).2 = 0 := by
  have h := indexFacesFromImages_purge_nonSingle (fun _ => .ok ["fa", "fb"])
    ⟨[], ["train/i1"]⟩ "train/i1" ["fa", "fb"] rfl (by decide)
  exact ⟨h.1, h.2.1, h.2.2.1⟩

/-- A concrete detect oracle: an invalid-image error on image a, an unknown
error on every other image. -/
def invalidOrOther (img : String) : IndexOutcome :=
  if img = "a" then .invalidImage else .otherError "boom"

/-- C6: an invalid-image error during indexing deletes the source object from
the bucket and leaves the collection and the count untouched, while any other
indexing error leaves the whole state untouched (the image is neither indexed
nor deleted) so that the next sync pass can retry it. -/
theorem indexFacesFromImages_error_policy (detect : String → IndexOutcome)
    (st : SyncState) (image : String) :
    (detect image = .invalidImage →
      (indexFacesFromImages detect st [image]).1.faces = st.faces
      ∧ image ∉ (indexFacesFromImages detect st [image]).1.bucket
      ∧ (indexFacesFromImages detect st [image]).2 = 0)
    ∧ ∀ msg, detect image = .otherError msg →
      (indexFacesFromImages detect st [image]).1 = st
      ∧ (indexFacesFromImages detect st [image]).2 = 0 := by
  constructor
  · intro hd
    refine ⟨?_, ?_, ?_⟩ <;> simp [indexFacesFromImages, indexStep, hd]
  · intro msg hd
    constructor <;> simp [indexFacesFromImages, indexStep, hd]

/-- Witness for C6 with an invalid-image error on one image and an unknown
error on another. -/
theorem indexFacesFromImages_error_policy_witness :
    ((indexFacesFromImages invalidOrOther ⟨[], ["a", "b"]⟩ ["a"]).1.faces = []
      ∧ "a" ∉ (indexFacesFromImages invalidOrOther ⟨[], ["a", "b"]⟩ ["a"]).1.bucket
      ∧ (indexFacesFromImages invalidOrOther ⟨[], ["a", "b"]⟩ ["a"]).2 = 0)
    ∧ (indexFacesFromImages invalidOrOther ⟨[], ["a", "b"]⟩ ["b"]).1 = ⟨[], ["a", "b"]⟩
    ∧ (indexFacesFromImages invalidOrOther ⟨[], ["a", "b"]⟩ ["b"]).2 = 0 :=
  ⟨(indexFacesFromImages_error_policy invalidOrOther ⟨[], ["a", "b"]⟩ "a").1 rfl,
   (indexFacesFromImages_error_policy invalidOrOther ⟨[], ["a", "b"]⟩ "b").2 "boom" rfl⟩

/-- C8: the destination training key of acquireTaste substitutes the
photo-path prefix of the URL path with the training prefix; the URL path
/bucket/photos/channel123/abc.jpg for bucket name bucket maps to the
training key train/channel123/abc.jpg, and the server-side copy call is
issued with exactly these source and destination keys. -/
theorem acquireTaste_trainKey_mapping :
    acquireDstKey "bucket" "/bucket/photos/channel123/abc.jpg"
      = "train/channel123/abc.jpg"
    ∧ (acquireTaste "bucket" (fun _ => .noRecords) ⟨[], []⟩
        [⟨"https://s3-eu-west-1.amazonaws.com/bucket/photos/channel123/abc.jpg",
          none, none⟩]).2.2
      = [Call.s3Copy "bucket" "/bucket/photos/channel123/abc.jpg"
          "train/channel123/abc.jpg"] := by
  constructor <;> decide

/-- C10: savePhoto rewrites photo.url only after the object upload succeeds;
on any failing path (empty channel name, a non-200 download status, or a
failed putObject) the returned photo record is the input unchanged, and
conversely a changed url implies the call returned success. -/
theorem savePhoto_url_atomic (env : Env) (channelName : String) (photo : Photo)
    (options : SaveOptions) :
    (∀ e, (savePhoto env channelName photo options).1 = .error e →
      (savePhoto env channelName photo options).2.1 = photo)
    ∧ ((savePhoto env channelName photo options).2.1.url ≠ photo.url →
      ∃ b, (savePhoto env channelName photo options).1 = .ok b) := by
  unfold savePhoto
  by_cases h1 : channelName = ""
  · rw [if_pos h1]
    simp
  · rw [if_neg h1]
    by_cases h2 : (env.httpGet photo.url).statusCode ≠ 200
    · rw [if_pos h2]
      simp
    · rw [if_neg h2]
      by_cases h3 : env.putObjectOk env.bucket (savePhotoKey env channelName photo options)
          = true
      · rw [if_pos h3]
        simp
      · rw [if_neg h3]
        simp

/-- Witness for C10 at a concrete failing download. -/
theorem savePhoto_url_atomic_witness :
    (savePhoto env404 "main" photoFresh ⟨none, none⟩).2.1 = photoFresh :=
  (savePhoto_url_atomic env404 "main" photoFresh ⟨none, none⟩).1
    "unable to download photo" rfl

/-- C9: for a valid channel and photo, with the download and upload
succeeding, mentalSnapshot persists the 84 by 84 resized variant under the
thumbnail key and returns the thumbnail's new canonical URL, while the
original photo record is returned completely unchanged (its url, similarity
and similarity_date fields included). -/
theorem mentalSnapshot_preserves_photo (env : Env) (channelName : String) (photo : Photo)
    (hc : channelName ≠ "")
    (hhttp : (env.httpGet photo.url).statusCode = 200)
    (hput : env.putObjectOk env.bucket
      (savePhotoKey env channelName photo ⟨some (84, 84), some "84x84_"⟩) = true) :
    mentalSnapshot env channelName photo
      = (.ok ("https://s3-" ++ env.region ++ ".amazonaws.com/" ++ env.bucket ++ "/"
            ++ savePhotoKey env channelName photo ⟨some (84, 84), some "84x84_"⟩),
         photo,
         [Call.httpGet photo.url,
          Call.s3Put env.bucket
            (savePhotoKey env channelName photo ⟨some (84, 84), some "84x84_"⟩)
            (env.resizeImage (env.httpGet photo.url).body 84 84)]) := by
  have hsave : savePhoto env channelName photo ⟨some (84, 84), some "84x84_"⟩
      = (.ok (env.resizeImage (env.httpGet photo.url).body 84 84),
         { photo with
           url := "https://s3-" ++ env.region ++ ".amazonaws.com/" ++ env.bucket ++ "/"
             ++ savePhotoKey env channelName photo ⟨some (84, 84), some "84x84_"⟩ },
         [Call.httpGet photo.url,
          Call.s3Put env.bucket
            (savePhotoKey env channelName photo ⟨some (84, 84), some "84x84_"⟩)
            (env.resizeImage (env.httpGet photo.url).body 84 84)]) := by
    unfold savePhoto
    rw [if_neg hc, if_neg (by simp [hhttp]), if_pos hput]
    rfl
  unfold mentalSnapshot
  rw [if_neg hc]
  simp only [hsave]

/-- Witness for C9 at a concrete fresh photo in the all-success environment. -/
theorem mentalSnapshot_preserves_photo_witness :
    mentalSnapshot (envT 84) "main" photoFresh
      = (.ok ("https://s3-" ++ (envT 84).region ++ ".amazonaws.com/" ++ (envT 84).bucket
            ++ "/" ++ savePhotoKey (envT 84) "main" photoFresh ⟨some (84, 84), some "84x84_"⟩),
         photoFresh,
         [Call.httpGet photoFresh.url,
          Call.s3Put (envT 84).bucket
            (savePhotoKey (envT 84) "main" photoFresh ⟨some (84, 84), some "84x84_"⟩)
            ((envT 84).resizeImage ((envT 84).httpGet photoFresh.url).body 84 84)]) :=
  mentalSnapshot_preserves_photo (envT 84) "main" photoFresh (by decide) rfl rfl

/-- C5: when the face-match search reports an invalid-image error, the
photo's similarity is set to 0, its similarity_date is populated with the
current date, and the result is a success (no error); consequently the
per-photo step of the batch yields the successful result 0 for such a photo
instead of surfacing an error. -/
theorem compareFacesFromImage_invalid_image (env : Env) (photo : Photo) (image : String)
    (hs : env.search image = .invalidImage) :
    compareFacesFromImage env photo image
      = (.ok 0,
         { photo with similarity := some 0, similarity_date := some env.nowIso },
         [Call.rekSearch env.collection image])
    ∧ ∀ channelName photo2 body2,
        truthyStr photo2.similarity_date = false →
        (savePhoto env channelName photo2 ⟨none, none⟩).1 = .ok body2 →
        env.search body2 = .invalidImage →
        checkPhotoOut env channelName photo2
          = (some 0,
             { (savePhoto env channelName photo2 ⟨none, none⟩).2.1 with
                 similarity := some 0, similarity_date := some env.nowIso },
             (savePhoto env channelName photo2 ⟨none, none⟩).2.2
               ++ [Call.rekSearch env.collection body2]) := by
  constructor
  · unfold compareFacesFromImage
    rw [hs]
  · intro channelName photo2 body2 ht hok hs2
    unfold checkPhotoOut
    rw [if_neg (by simp [ht])]
    rcases hsv : savePhoto env channelName photo2 ⟨none, none⟩ with ⟨r, p1, calls1⟩
    rw [hsv] at hok
    simp only at hok
    subst hok
    have hcmp : compareFacesFromImage env p1 body2
        = (.ok 0,
           { p1 with similarity := some 0, similarity_date := some env.nowIso },
           [Call.rekSearch env.collection body2]) := by
      unfold compareFacesFromImage
      rw [hs2]
    dsimp only
    rw [hcmp]

/-- The all-success environment whose face search always reports an
invalid-image error. -/
def envInv : Env := { envT 84 with search := fun _ => .invalidImage }

/-- Witness for C5 at a concrete fresh photo. -/
theorem compareFacesFromImage_invalid_image_witness :
    compareFacesFromImage envInv photoFresh "img"
      = (.ok 0,
         { photoFresh with similarity := some 0, similarity_date := some envInv.nowIso },
         [Call.rekSearch envInv.collection "img"])
    ∧ checkPhotoOut envInv "main" photoFresh
      = (some 0,
         { (savePhoto envInv "main" photoFresh ⟨none, none⟩).2.1 with
             similarity := some 0, similarity_date := some envInv.nowIso },
         (savePhoto envInv "main" photoFresh ⟨none, none⟩).2.2
           ++ [Call.rekSearch envInv.collection "BODY"]) :=
  ⟨(compareFacesFromImage_invalid_image envInv photoFresh "img" rfl).1,
   (compareFacesFromImage_invalid_image envInv photoFresh "img" rfl).2
     "main" photoFresh "BODY" rfl rfl rfl⟩

/-- Helper: the entries lodash without keeps are exactly the defined nonzero
scores, both as values and in count. -/
theorem lodashWithout_spec (sims : List (Option ℚ)) :
    (lodashWithout0Undef sims).filterMap id
      = (sims.filterMap id).filter (fun q => decide (q ≠ 0))
    ∧ (lodashWithout0Undef sims).length
      = ((sims.filterMap id).filter (fun q => decide (q ≠ 0))).length := by
  induction sims with
  | nil => simp [lodashWithout0Undef]
  | cons x tl ih =>
    rcases x with _ | q
    · simpa [lodashWithout0Undef, List.filter_cons] using ih
    · by_cases hq : q = 0
      · subst hq
        simpa [lodashWithout0Undef, List.filter_cons] using ih
      · simp only [lodashWithout0Undef, List.filter_cons, List.filterMap_cons] at ih ⊢
        simp [hq, ih.1, ih.2]

/-- Helper: the JS or-else-0 of a present value is the value itself, whether
or not it is 0. -/
theorem jsNumOr_some_zero (v : ℚ) : jsNumOr (some v) 0 = v := by
  show (if v = 0 then 0 else v) = v
  by_cases h : v = 0
  · rw [if_pos h, h]
  · rw [if_neg h]

/-- Helper: the mean the code computes equals the mean as the spec words it. -/
theorem faceSimilarityMeanOf_eq_spec (sims : List (Option ℚ)) :
    faceSimilarityMeanOf sims = specMeanOf sims := by
  obtain ⟨hA, hB⟩ := lodashWithout_spec sims
  by_cases hemp : (sims.filterMap id).filter (fun q => decide (q ≠ 0)) = []
  · have hw : lodashWithout0Undef sims = [] := by
      have hz : (lodashWithout0Undef sims).length = 0 := by rw [hB, hemp]; rfl
      exact List.length_eq_zero.mp hz
    have hlhs : faceSimilarityMeanOf sims = 0 := by
      rw [faceSimilarityMeanOf, hw]
      rfl
    have hrhs : specMeanOf sims = 0 := by
      unfold specMeanOf
      rw [hemp]
      rfl
    rw [hlhs, hrhs]
  · have hwne : (lodashWithout0Undef sims).isEmpty = false := by
      rcases hw : lodashWithout0Undef sims with _ | ⟨y, ys⟩
      · exact absurd (by rw [← hA, hw]; rfl) hemp
      · rfl
    have hlen : ((lodashWithout0Undef sims).filterMap id).length
        = (lodashWithout0Undef sims).length := by
      rw [hA, hB]
    have hmean : lodashMean (lodashWithout0Undef sims)
        = some ((((sims.filterMap id).filter (fun q => decide (q ≠ 0))).sum)
            / ((((sims.filterMap id).filter (fun q => decide (q ≠ 0)))).length : ℚ)) := by
      unfold lodashMean
      rw [if_neg (by rw [hwne]; exact Bool.false_ne_true), if_neg (by rw [hlen]; simp),
        hA, hB]
    have hrhs : specMeanOf sims
        = round2 ((((sims.filterMap id).filter (fun q => decide (q ≠ 0))).sum)
            / ((((sims.filterMap id).filter (fun q => decide (q ≠ 0)))).length : ℚ)) := by
      unfold specMeanOf
      rw [if_neg (by rw [List.isEmpty_eq_true]; exact hemp)]
    have hfinal : faceSimilarityMeanOf sims
        = jsNumOr (some (round2 ((((sims.filterMap id).filter (fun q => decide (q ≠ 0))).sum)
            / ((((sims.filterMap id).filter (fun q => decide (q ≠ 0)))).length : ℚ)))) 0 := by
      rw [faceSimilarityMeanOf, hmean]
      rfl
    rw [hfinal, hrhs, jsNumOr_some_zero]

/-- C4: the batch mean is the spec mean (exclude every 0 and undefined
score, round to 2 decimals, default 0 when nothing remains), the like
decision is exactly: photo list non-empty and mean strictly above the
likePhotosThreshold of the settings, and concretely: similarities 80 and 90
give mean 85, like with threshold 84, and no like with threshold 86. -/
theorem checkPhotosOut_like_threshold :
    (∀ sims, faceSimilarityMeanOf sims = specMeanOf sims)
    ∧ (∀ env channelName photos,
        ((computeBatch env channelName photos).1.like = true
          ↔ photos ≠ []
            ∧ (computeBatch env channelName photos).1.faceSimilarityMean
                > (findOrCreateNewSettings env).likePhotosThreshold))
    ∧ (computeBatch (envT 84) "main" [photo80, photo90]).1.faceSimilarityMean = 85
    ∧ (computeBatch (envT 84) "main" [photo80, photo90]).1.like = true
    ∧ (computeBatch (envT 86) "main" [photo80, photo90]).1.like = false
    ∧ (checkPhotosOut (envT 84) "main" [photo80, photo90]).1
        = .ok (computeBatch (envT 84) "main" [photo80, photo90]).1 := by
  refine ⟨faceSimilarityMeanOf_eq_spec, ?_, ?_, ?_, ?_, ?_⟩
  · intro env channelName photos
    have hl : (computeBatch env channelName photos).1.like
        = (!((computeBatch env channelName photos).1.faceSimilarities).isEmpty
          && decide ((computeBatch env channelName photos).1.faceSimilarityMean
            > (findOrCreateNewSettings env).likePhotosThreshold)) := rfl
    have hfs : (computeBatch env channelName photos).1.faceSimilarities
        = (photos.map (fun p => checkPhotoOut env channelName p)).map (fun r => r.1) :=
      rfl
    rw [hl, Bool.and_eq_true, Bool.not_eq_true', decide_eq_true_eq]
    constructor
    · rintro ⟨hne, hgt⟩
      refine ⟨fun hnil => ?_, hgt⟩
      rw [hfs, hnil] at hne
      simp at hne
    · rintro ⟨hne, hgt⟩
      refine ⟨?_, hgt⟩
      rw [hfs]
      rcases photos with _ | ⟨p, ps⟩
      · exact absurd rfl hne
      · rfl
  · with_unfolding_all decide
  · with_unfolding_all decide
  · with_unfolding_all decide
  · rfl

/-- The all-success environment with a negative like threshold. -/
def envNeg : Env := { envT 84 with settings := ⟨-1⟩ }

/-- A concrete already-checked-out photo with similarity 0. -/
def photoZa : Photo := ⟨"https://x/pz1.jpg", some 0, some "2017-01-01T00:00:00.000Z"⟩

/-- A second concrete already-checked-out photo with similarity 0. -/
def photoZb : Photo := ⟨"https://x/pz2.jpg", some 0, some "2017-01-01T00:00:00.000Z"⟩

/-- Counterexample to C7 as stated: for the similarity list consisting of 0
and 0 the mean is 0, but with the negative threshold -1 the like decision is
0 greater than -1, hence true, not false: like is not false regardless of the
threshold value. -/
theorem checkPhotosOut_zeroPair_counterexample :
    (computeBatch envNeg "main" [photoZa, photoZb]).1.faceSimilarities
      = [some 0, some 0]
    ∧ (computeBatch envNeg "main" [photoZa, photoZb]).1.faceSimilarityMean = 0
    ∧ (computeBatch envNeg "main" [photoZa, photoZb]).1.like = true := by
  with_unfolding_all decide

/-- C7 amended: for the similarity list consisting of 0 and 0, the mean is 0
(the empty-after-exclusion case), and the like decision is false for every
non-negative likePhotosThreshold (a negative threshold makes it true, since
like is decided by mean strictly greater than threshold). -/
theorem checkPhotosOut_zeroPair_amended (env : Env) (channelName : String)
    (photos : List Photo)
    (hsims : (computeBatch env channelName photos).1.faceSimilarities
      = [some 0, some 0])
    (ht : 0 ≤ (findOrCreateNewSettings env).likePhotosThreshold) :
    (computeBatch env channelName photos).1.faceSimilarityMean = 0
    ∧ (computeBatch env channelName photos).1.like = false := by
  have hm : (computeBatch env channelName photos).1.faceSimilarityMean
      = faceSimilarityMeanOf ((computeBatch env channelName photos).1.faceSimilarities) :=
    rfl
  have hmv : (computeBatch env channelName photos).1.faceSimilarityMean = 0 := by
    rw [hm, hsims]
    with_unfolding_all decide
  refine ⟨hmv, ?_⟩
  have hl : (computeBatch env channelName photos).1.like
      = (!((computeBatch env channelName photos).1.faceSimilarities).isEmpty
        && decide ((computeBatch env channelName photos).1.faceSimilarityMean
          > (findOrCreateNewSettings env).likePhotosThreshold)) := rfl
  rw [hl, hsims, hmv]
  simp [not_lt.mpr ht]

/-- Witness for the amended C7 at the concrete threshold 84. -/
theorem checkPhotosOut_zeroPair_amended_witness :
    (computeBatch (envT 84) "main" [photoZa, photoZb]).1.faceSimilarityMean = 0
    ∧ (computeBatch (envT 84) "main" [photoZa, photoZb]).1.like = false :=
  checkPhotosOut_zeroPair_amended (envT 84) "main" [photoZa, photoZb]
    (by with_unfolding_all decide) (by with_unfolding_all decide)

/-- Helper: contains agrees with membership on string lists. -/
theorem contains_eq_decide_mem (l : List String) (a : String) :
    l.contains a = decide (a ∈ l) := by
  induction l with
  | nil => rfl
  | cons x xs ih => simp [List.contains_cons, ih]

/-- Helper: freshness is preserved when dropping the head image. -/
theorem freshIds_tail {detect : String → IndexOutcome} {baseIds : List String}
    {img : String} {tl : List String}
    (h : FreshIds detect baseIds (img :: tl)) : FreshIds detect baseIds tl := by
  intro img2 h2 id hid
  obtain ⟨hbase, huniq⟩ := h img2 (List.mem_cons_of_mem _ h2) id hid
  exact ⟨hbase, fun imgB hB hidB => huniq imgB (List.mem_cons_of_mem _ hB) hidB⟩

/-- Helper: a member of addedFaces carries its image as ExternalImageId and
certifies that the image is not purged. -/
theorem addedFaces_spec (detect : String → IndexOutcome) (img : String)
    (f : FaceRecord) (hmem : f ∈ addedFaces detect img) :
    f.ExternalImageId = img ∧ purges detect img = false := by
  unfold addedFaces at hmem
  rcases hd : detect img with fs | _ | _ | m <;> rw [hd] at hmem <;> dsimp only at hmem
  · by_cases hlen : fs.length = 1
    · rw [if_pos hlen] at hmem
      rw [List.mem_map] at hmem
      obtain ⟨id, hidmem, hfe⟩ := hmem
      subst hfe
      refine ⟨rfl, ?_⟩
      simp [purges, hd, hlen]
    · rw [if_neg hlen] at hmem
      exact absurd hmem (List.not_mem_nil f)
  · exact absurd hmem (List.not_mem_nil f)
  · exact absurd hmem (List.not_mem_nil f)
  · exact absurd hmem (List.not_mem_nil f)

/-- Helper: the bucket after a fold of indexStep keeps exactly the objects
that are not purged while being processed. -/
theorem indexFold_bucket (detect : String → IndexOutcome) :
    ∀ (images : List String) (st : SyncState) (n : Nat),
      ((images.foldl (indexStep detect) (st, n)).1).bucket
        = st.bucket.filter (fun b => !(images.contains b && purges detect b)) := by
  intro images
  induction images with
  | nil =>
    intro st n
    simp
  | cons img tl ih =>
    intro st n
    rw [List.foldl_cons]
    have hpt : ∀ b : String, purges detect img = true →
        ((!(tl.contains b && purges detect b)) && (b != img))
          = !((img :: tl).contains b && purges detect b) := by
      intro b hp
      by_cases hbe : b = img
      · subst hbe
        simp [List.contains_cons, hp]
      · simp [List.contains_cons, hbe]
    have hpf : ∀ b : String, purges detect img = false →
        (!(tl.contains b && purges detect b))
          = !((img :: tl).contains b && purges detect b) := by
      intro b hp
      by_cases hbe : b = img
      · subst hbe
        simp [List.contains_cons, hp]
      · simp [List.contains_cons, hbe]
    rcases hd : detect img with fs | _ | _ | msg
    · by_cases hlen : fs.length = 1
      · have hstep : indexStep detect (st, n) img
            = ⟨⟨st.faces ++ fs.map (fun id => FaceRecord.mk id img), st.bucket⟩, n + 1⟩ := by
          simp [indexStep, hd, hlen]
        have hp : purges detect img = false := by simp [purges, hd, hlen]
        rw [hstep, ih]
        exact List.filter_congr (fun b _ => hpf b hp)
      · have hstep : indexStep detect (st, n) img
            = ⟨⟨deleteFacesFromList fs (st.faces ++ fs.map (fun id => FaceRecord.mk id img)),
                st.bucket.filter (fun b => b != img)⟩, n⟩ := by
          simp [indexStep, hd, hlen]
        have hp : purges detect img = true := by simp [purges, hd, hlen]
        rw [hstep, ih, List.filter_filter]
        exact List.filter_congr (fun b _ => hpt b hp)
    · have hstep : indexStep detect (st, n) img = (st, n) := by simp [indexStep, hd]
      have hp : purges detect img = false := by simp [purges, hd]
      rw [hstep, ih]
      exact List.filter_congr (fun b _ => hpf b hp)
    · have hstep : indexStep detect (st, n) img
          = ⟨⟨st.faces, st.bucket.filter (fun b => b != img)⟩, n⟩ := by
        simp [indexStep, hd]
      have hp : purges detect img = true := by simp [purges, hd]
      rw [hstep, ih, List.filter_filter]
      exact List.filter_congr (fun b _ => hpt b hp)
    · have hstep : indexStep detect (st, n) img = (st, n) := by simp [indexStep, hd]
      have hp : purges detect img = false := by simp [purges, hd]
      rw [hstep, ih]
      exact List.filter_congr (fun b _ => hpf b hp)

/-- Helper: with pairwise distinct images and globally fresh generated face
ids, a fold of indexStep appends to the collection exactly the kept faces of
the processed images. -/
theorem indexFold_faces (detect : String → IndexOutcome) :
    ∀ (images : List String), images.Nodup →
      ∀ (st : SyncState) (n : Nat),
        FreshIds detect (st.faces.map (fun f => f.FaceId)) images →
        ((images.foldl (indexStep detect) (st, n)).1).faces
          = st.faces ++ images.flatMap (addedFaces detect) := by
  intro images
  induction images with
  | nil =>
    intro _ st n _
    simp
  | cons img tl ih =>
    intro hnodup st n hfresh
    have himg_tl : img ∉ tl := (List.nodup_cons.mp hnodup).1
    have htl : tl.Nodup := (List.nodup_cons.mp hnodup).2
    have hids : okIds detect img = okIds detect img := rfl
    rw [List.foldl_cons]
    rcases hd : detect img with fs | _ | _ | msg
    · have hok : okIds detect img = fs := by simp [okIds, hd]
      by_cases hlen : fs.length = 1
      · have hstep : indexStep detect (st, n) img
            = ⟨⟨st.faces ++ fs.map (fun id => FaceRecord.mk id img), st.bucket⟩, n + 1⟩ := by
          simp [indexStep, hd, hlen]
        rw [hstep]
        have hfresh2 : FreshIds detect
            ((st.faces ++ fs.map (fun id => FaceRecord.mk id img)).map
              (fun f => f.FaceId)) tl := by
          intro img2 h2 id hid
          obtain ⟨hbase, huniq⟩ := hfresh img2 (List.mem_cons_of_mem _ h2) id hid
          constructor
          · intro hmem
            rw [List.map_append, List.mem_append] at hmem
            rcases hmem with hmem1 | hmem2
            · exact hbase hmem1
            · rw [List.map_map] at hmem2
              have hidfs : id ∈ fs := by simpa using hmem2
              have heq2 : img = img2 :=
                huniq img (List.mem_cons_self _ _) (by rw [hok]; exact hidfs)
              exact himg_tl (heq2 ▸ h2)
          · intro imgB hB hidB
            exact huniq imgB (List.mem_cons_of_mem _ hB) hidB
        rw [ih htl ⟨st.faces ++ fs.map (fun id => FaceRecord.mk id img), st.bucket⟩
          (n + 1) hfresh2]
        have hadd : addedFaces detect img = fs.map (fun id => FaceRecord.mk id img) := by
          simp [addedFaces, hd, hlen]
        rw [List.flatMap_cons, hadd, List.append_assoc]
      · have hbase_not : ∀ f ∈ st.faces, f.FaceId ∉ fs := by
          intro f hf hmem
          have hidok : f.FaceId ∈ okIds detect img := by rw [hok]; exact hmem
          obtain ⟨hbase, _⟩ := hfresh img (List.mem_cons_self _ _) f.FaceId hidok
          exact hbase (List.mem_map.mpr ⟨f, hf, rfl⟩)
        have hFdel : deleteFacesFromList fs
            (st.faces ++ fs.map (fun id => FaceRecord.mk id img)) = st.faces := by
          unfold deleteFacesFromList
          rw [List.filter_append]
          have h1 : st.faces.filter (fun f => decide (f.FaceId ∉ fs)) = st.faces := by
            rw [List.filter_eq_self]
            intro f hf
            exact decide_eq_true (hbase_not f hf)
          have h2 : (fs.map (fun id => FaceRecord.mk id img)).filter
              (fun f => decide (f.FaceId ∉ fs)) = [] := by
            rw [List.filter_eq_nil_iff]
            intro f hf
            rw [List.mem_map] at hf
            obtain ⟨id, hidmem, hfe⟩ := hf
            subst hfe
            simp [hidmem]
          rw [h1, h2, List.append_nil]
        have hstep : indexStep detect (st, n) img
            = ⟨⟨deleteFacesFromList fs (st.faces ++ fs.map (fun id => FaceRecord.mk id img)),
                st.bucket.filter (fun b => b != img)⟩, n⟩ := by
          simp [indexStep, hd, hlen]
        rw [hstep, hFdel]
        rw [ih htl ⟨st.faces, st.bucket.filter (fun b => b != img)⟩ n (freshIds_tail hfresh)]
        have hadd : addedFaces detect img = [] := by
          simp [addedFaces, hd, hlen]
        rw [List.flatMap_cons, hadd, List.nil_append]
    · have hstep : indexStep detect (st, n) img = (st, n) := by simp [indexStep, hd]
      rw [hstep, ih htl st n (freshIds_tail hfresh)]
      have hadd : addedFaces detect img = [] := by simp [addedFaces, hd]
      rw [List.flatMap_cons, hadd, List.nil_append]
    · have hstep : indexStep detect (st, n) img
          = ⟨⟨st.faces, st.bucket.filter (fun b => b != img)⟩, n⟩ := by
        simp [indexStep, hd]
      rw [hstep, ih htl ⟨st.faces, st.bucket.filter (fun b => b != img)⟩ n
        (freshIds_tail hfresh)]
      have hadd : addedFaces detect img = [] := by simp [addedFaces, hd]
      rw [List.flatMap_cons, hadd, List.nil_append]
    · have hstep : indexStep detect (st, n) img = (st, n) := by simp [indexStep, hd]
      rw [hstep, ih htl st n (freshIds_tail hfresh)]
      have hadd : addedFaces detect img = [] := by simp [addedFaces, hd]
      rw [List.flatMap_cons, hadd, List.nil_append]

/-- Helper: with pairwise distinct face ids, the batched face deletion of the
sync keeps exactly the faces whose image is still in the bucket. -/
theorem deletePhase_faces (st : SyncState)
    (hids : (st.faces.map (fun f => f.FaceId)).Nodup) :
    deleteFacesFromList (facesToDeleteOf st) st.faces
      = st.faces.filter (fun f => decide (f.ExternalImageId ∈ st.bucket)) := by
  unfold deleteFacesFromList
  apply List.filter_congr
  intro f hf
  have key : f.FaceId ∈ facesToDeleteOf st ↔ f.ExternalImageId ∉ st.bucket := by
    constructor
    · intro hmem
      unfold facesToDeleteOf at hmem
      rw [List.mem_flatMap] at hmem
      obtain ⟨img, himg, hmem2⟩ := hmem
      rw [List.mem_map] at hmem2
      obtain ⟨g, hgmem, hgid⟩ := hmem2
      rw [List.mem_filter] at hgmem
      obtain ⟨hg, hgext⟩ := hgmem
      have hgig : g.ExternalImageId = img := by simpa using hgext
      have hfg : g = f := List.inj_on_of_nodup_map hids hg hf hgid
      unfold imagesToDeleteOf at himg
      rw [List.mem_filter] at himg
      have hnot : img ∉ st.bucket := of_decide_eq_true himg.2
      rw [← hfg, hgig]
      exact hnot
    · intro hnot
      unfold facesToDeleteOf
      rw [List.mem_flatMap]
      refine ⟨f.ExternalImageId, ?_, ?_⟩
      · unfold imagesToDeleteOf
        rw [List.mem_filter]
        refine ⟨?_, decide_eq_true hnot⟩
        unfold currentImagesOf
        exact List.mem_dedup.mpr (List.mem_map.mpr ⟨f, hf, rfl⟩)
      · rw [List.mem_map]
        refine ⟨f, ?_, rfl⟩
        rw [List.mem_filter]
        exact ⟨hf, by simp⟩
  by_cases hmem : f.ExternalImageId ∈ st.bucket
  · have h1 : f.FaceId ∉ facesToDeleteOf st := fun hm => (key.mp hm) hmem
    rw [decide_eq_true h1, decide_eq_true hmem]
  · have h1 : f.FaceId ∈ facesToDeleteOf st := key.mpr hmem
    have h2 : ¬f.FaceId ∉ facesToDeleteOf st := fun hn => hn h1
    rw [decide_eq_false h2, decide_eq_false hmem]

/-- C1: the collection synchronizer is idempotent. Hypotheses: the bucket
listing has pairwise distinct keys, the collection's face ids are pairwise
distinct, the first run indexes every missing image without error, and the
face ids the service generates are globally fresh. Then after one run both
difference sets of a second run are empty, so the second run deletes zero
faces and indexes zero images. -/
theorem syncS3BucketAndRekognitionCollection_idempotent
    (detect : String → IndexOutcome) (st : SyncState)
    (hbucket : st.bucket.Nodup)
    (hids : (st.faces.map (fun f => f.FaceId)).Nodup)
    (hok : ∀ img ∈ imagesToIndexOf st, ∃ fs, detect img = .ok fs)
    (hfresh : FreshIds detect (st.faces.map (fun f => f.FaceId)) (imagesToIndexOf st)) :
    imagesToDeleteOf (runSync detect st).1 = []
    ∧ imagesToIndexOf (runSync detect st).1 = []
    ∧ (runSync detect (runSync detect st).1).2.1 = 0
    ∧ (runSync detect (runSync detect st).1).2.2 = 0 := by
  have hdel : deleteFacesFromList (facesToDeleteOf st) st.faces
      = st.faces.filter (fun f => decide (f.ExternalImageId ∈ st.bucket)) :=
    deletePhase_faces st hids
  have h1 : (runSync detect st).1
      = ((imagesToIndexOf st).foldl (indexStep detect)
          (⟨st.faces.filter (fun f => decide (f.ExternalImageId ∈ st.bucket)),
            st.bucket⟩, 0)).1 := by
    simp only [runSync, indexFacesFromImages]
    rw [hdel]
  have hFr1 : FreshIds detect
      ((st.faces.filter (fun f => decide (f.ExternalImageId ∈ st.bucket))).map
        (fun f => f.FaceId)) (imagesToIndexOf st) := by
    intro img h id hid
    obtain ⟨hbase, huniq⟩ := hfresh img h id hid
    refine ⟨?_, huniq⟩
    intro hmem
    apply hbase
    rw [List.mem_map] at hmem
    obtain ⟨f, hf1, hfid⟩ := hmem
    exact List.mem_map.mpr ⟨f, (List.mem_filter.mp hf1).1, hfid⟩
  have hnodupIdx : (imagesToIndexOf st).Nodup := hbucket.filter _
  have hfaces : ((runSync detect st).1).faces
      = st.faces.filter (fun f => decide (f.ExternalImageId ∈ st.bucket))
        ++ (imagesToIndexOf st).flatMap (addedFaces detect) := by
    rw [h1]
    exact indexFold_faces detect (imagesToIndexOf st) hnodupIdx _ 0 hFr1
  have hbkt : ((runSync detect st).1).bucket
      = st.bucket.filter
          (fun b => !((imagesToIndexOf st).contains b && purges detect b)) := by
    rw [h1]
    exact indexFold_bucket detect (imagesToIndexOf st) _ 0
  have hmemF : ∀ f : FaceRecord, f ∈ ((runSync detect st).1).faces ↔
      (f ∈ st.faces ∧ f.ExternalImageId ∈ st.bucket)
      ∨ ∃ img ∈ imagesToIndexOf st, f ∈ addedFaces detect img := by
    intro f
    rw [hfaces, List.mem_append, List.mem_filter, List.mem_flatMap]
    constructor
    · rintro (⟨ha, hb⟩ | ⟨img, himg, hadd⟩)
      · exact Or.inl ⟨ha, of_decide_eq_true hb⟩
      · exact Or.inr ⟨img, himg, hadd⟩
    · rintro (⟨ha, hb⟩ | ⟨img, himg, hadd⟩)
      · exact Or.inl ⟨ha, decide_eq_true hb⟩
      · exact Or.inr ⟨img, himg, hadd⟩
  have goal1 : imagesToDeleteOf (runSync detect st).1 = [] := by
    unfold imagesToDeleteOf
    rw [List.filter_eq_nil_iff]
    intro i hi
    unfold currentImagesOf at hi
    rw [List.mem_dedup, List.mem_map] at hi
    obtain ⟨f, hfmem, hfe⟩ := hi
    rw [hmemF] at hfmem
    have hin : i ∈ ((runSync detect st).1).bucket := by
      rw [hbkt, List.mem_filter]
      rcases hfmem with ⟨ha, hb⟩ | ⟨img, himg, hadd⟩
      · refine ⟨hfe ▸ hb, ?_⟩
        have hic : i ∈ currentImagesOf st.faces := by
          unfold currentImagesOf
          rw [List.mem_dedup, List.mem_map]
          exact ⟨f, ha, hfe⟩
        have hnotidx : i ∉ imagesToIndexOf st := by
          intro hmem
          unfold imagesToIndexOf at hmem
          rw [List.mem_filter] at hmem
          exact (of_decide_eq_true hmem.2) hic
        rw [contains_eq_decide_mem, decide_eq_false hnotidx]
        rfl
      · obtain ⟨hext, hpurge⟩ := addedFaces_spec detect img f hadd
        have hieq : i = img := by rw [← hfe, hext]
        subst hieq
        have hibkt : i ∈ st.bucket := by
          unfold imagesToIndexOf at himg
          exact (List.mem_filter.mp himg).1
        refine ⟨hibkt, ?_⟩
        rw [hpurge]
        simp
    intro hdec
    exact (of_decide_eq_true hdec) hin
  have goal2 : imagesToIndexOf (runSync detect st).1 = [] := by
    unfold imagesToIndexOf
    rw [List.filter_eq_nil_iff]
    intro b hb
    rw [hbkt, List.mem_filter] at hb
    obtain ⟨hbb, hpred⟩ := hb
    intro hdec
    have hnotcur : b ∉ currentImagesOf ((runSync detect st).1).faces :=
      of_decide_eq_true hdec
    apply hnotcur
    unfold currentImagesOf
    rw [List.mem_dedup, List.mem_map]
    by_cases hcur : b ∈ currentImagesOf st.faces
    · unfold currentImagesOf at hcur
      rw [List.mem_dedup, List.mem_map] at hcur
      obtain ⟨f, hf, hfe⟩ := hcur
      refine ⟨f, ?_, hfe⟩
      rw [hmemF]
      exact Or.inl ⟨hf, hfe ▸ hbb⟩
    · have hbidx : b ∈ imagesToIndexOf st := by
        unfold imagesToIndexOf
        rw [List.mem_filter]
        exact ⟨hbb, decide_eq_true hcur⟩
      have hcont : (imagesToIndexOf st).contains b = true := by
        rw [contains_eq_decide_mem]
        exact decide_eq_true hbidx
      have hpurge : purges detect b = false := by
        rw [hcont] at hpred
        cases hp : purges detect b
        · rfl
        · rw [hp] at hpred
          exact absurd hpred (by simp)
      obtain ⟨fs, hfs⟩ := hok b hbidx
      have hlen : fs.length = 1 := by
        unfold purges at hpurge
        rw [hfs] at hpurge
        simpa using hpurge
      rcases fs with _ | ⟨id, rest⟩
      · exact absurd hlen (by simp)
      · have hrest : rest = [] := by
          rw [List.length_cons] at hlen
          exact List.length_eq_zero.mp (Nat.succ_injective hlen)
        subst hrest
        refine ⟨FaceRecord.mk id b, ?_, rfl⟩
        rw [hmemF]
        refine Or.inr ⟨b, hbidx, ?_⟩
        unfold addedFaces
        rw [hfs]
        simp
  refine ⟨goal1, goal2, ?_, ?_⟩
  · have hfd : facesToDeleteOf (runSync detect st).1 = [] := by
      unfold facesToDeleteOf
      rw [goal1]
      rfl
    show (facesToDeleteOf (runSync detect st).1).length = 0
    rw [hfd]
    rfl
  · show (indexFacesFromImages detect _ (imagesToIndexOf (runSync detect st).1)).2 = 0
    rw [goal2]
    rfl

/-- The concrete sync witness state: two indexed faces, one of them for an
image no longer in the bucket, and one bucket image not yet indexed. -/
def stW : SyncState :=
  ⟨[⟨"f1", "train/a"⟩, ⟨"f2", "old"⟩], ["train/a", "train/b"]⟩

/-- The concrete detect oracle of the sync witness: one face for the not yet
indexed image, none elsewhere. -/
def detectW (img : String) : IndexOutcome :=
  .ok (if img = "train/b" then ["f3"] else [])

/-- Witness for C1 at the concrete state and oracle. -/
theorem syncS3BucketAndRekognitionCollection_idempotent_witness :
    imagesToDeleteOf (runSync detectW stW).1 = []
    ∧ imagesToIndexOf (runSync detectW stW).1 = []
    ∧ (runSync detectW (runSync detectW stW).1).2.1 = 0
    ∧ (runSync detectW (runSync detectW stW).1).2.2 = 0 :=
  syncS3BucketAndRekognitionCollection_idempotent detectW stW (by decide) (by decide)
    (fun img _ => ⟨if img = "train/b" then ["f3"] else [], rfl⟩)
    (by unfold FreshIds; decide)
